import Mathlib

/-!
Verification of the albums catalog service (`src/main.go`).

The service keeps an in-memory list of album records and exposes three
operations: list all albums, get an album by id, and create an album.
Request validation is declared by JSON-Schema field tags on the `album`
struct: `id` is required with `minLength:"1"`, `title` is required (no
minimum length tag), `artist` is unconstrained, and `price` has
`minimum:"0"`.  We embed the record type, the declared validation, and
the three interactor bodies, and prove the behavioral contract.
-/

namespace RestTutorial

/-- Error statuses used by the handlers: `status.AlreadyExists` (409),
`status.NotFound` (404), and the framework's schema-validation failure
(400, "bad input"). -/
inductive Status where
  | alreadyExists
  | notFound
  | badInput
deriving DecidableEq, Repr

/-- The `album` struct of `src/main.go`: one catalog record.  Prices are
modelled as rationals; the code only compares them with `0` and copies
them, so no floating-point behavior is involved in any claim. -/
structure Album where
  id : String
  title : String
  artist : String
  price : ℚ
deriving DecidableEq, Repr

/-- The seeded `albums` slice of `src/main.go`: the catalog contents at
process start. -/
def albums : List Album :=
  [ { id := "1", title := "Blue Train", artist := "John Coltrane", price := mkRat 5699 100 },
    { id := "2", title := "Jeru", artist := "Gerry Mulligan", price := mkRat 1799 100 },
    { id := "3", title := "Sarah Vaughan and Clifford Brown", artist := "Sarah Vaughan",
      price := mkRat 3999 100 } ]

/-- A raw create request: the JSON body of `POST /albums` before
validation.  Each field may be absent (`none`). -/
structure AlbumRequest where
  id : Option String
  title : Option String
  artist : Option String
  price : Option ℚ
deriving DecidableEq, Repr

/-- Validation of the `id` field, from the tag
`required:"true" minLength:"1"`: the key must be present and the string
must have length at least 1. -/
def idValid (r : AlbumRequest) : Bool :=
  match r.id with
  | none => false
  | some s => decide (1 ≤ s.length)

/-- Validation of the `title` field, from the tag `required:"true"`:
the key must be present.  The tag carries no `minLength`, so a present
empty string passes. -/
def titleValid (r : AlbumRequest) : Bool :=
  r.title.isSome

/-- Validation of the `price` field, from the tag `minimum:"0"`: if the
key is present its value must be at least 0; an absent key passes (the
field is not required). -/
def priceValid (r : AlbumRequest) : Bool :=
  match r.price with
  | none => true
  | some p => decide (0 ≤ p)

/-- The full JSON-Schema validation of a create request: every declared
field constraint must hold (`artist` has no constraint). -/
def validRequest (r : AlbumRequest) : Bool :=
  idValid r && titleValid r && priceValid r

/-- JSON decoding of a request into the Go `album` struct: absent fields
take the Go zero value (empty string, price 0). -/
def decodeAlbum (r : AlbumRequest) : Album :=
  { id := r.id.getD "", title := r.title.getD "", artist := r.artist.getD "",
    price := r.price.getD 0 }

/-- The `getAlbums` interactor body: copies the whole catalog to the
output and returns no error.  The catalog state is threaded explicitly;
the Go code reads the global `albums` slice. -/
def getAlbums (cat : List Album) : List Album × Except Status (List Album) :=
  (cat, Except.ok cat)

/-- The `postAlbums` interactor body: scan the catalog for an album with
the same id; on a hit return `status.AlreadyExists` leaving the catalog
as it was, otherwise append the input and echo it back. -/
def postAlbums (cat : List Album) (a : Album) : List Album × Except Status Album :=
  if cat.any (fun x => x.id == a.id) then
    (cat, Except.error Status.alreadyExists)
  else
    (cat ++ [a], Except.ok a)

/-- The `getAlbumByID` interactor body: scan the catalog in order and
return the first album whose id matches, or `status.NotFound`.  The
catalog is never modified. -/
def getAlbumByID (cat : List Album) (i : String) : List Album × Except Status Album :=
  match cat.find? (fun a => a.id == i) with
  | some a => (cat, Except.ok a)
  | none => (cat, Except.error Status.notFound)

/-- The full `POST /albums` handler: the framework validates the JSON
body against the declared schema before the interactor runs; a failing
body is rejected with a 400 response and the interactor never executes. -/
def createAlbum (cat : List Album) (r : AlbumRequest) : List Album × Except Status Album :=
  if validRequest r then postAlbums cat (decodeAlbum r)
  else (cat, Except.error Status.badInput)

/-- One client-visible operation of the service. -/
inductive Op where
  | list
  | getById (i : String)
  | create (r : AlbumRequest)

/-- The catalog state after one operation (the state component of the
corresponding handler). -/
def applyOp (cat : List Album) : Op → List Album
  | Op.list => (getAlbums cat).1
  | Op.getById i => (getAlbumByID cat i).1
  | Op.create r => (createAlbum cat r).1

/-- The catalog state after a sequence of operations, starting from the
seeded catalog. -/
def runOps (ops : List Op) : List Album :=
  ops.foldl applyOp albums

/-- The concrete scenario record from the spec: album "4", Kind of
Blue. -/
def kindOfBlue : Album :=
  { id := "4", title := "Kind of Blue", artist := "Miles Davis", price := mkRat 4999 100 }

/-- The create request whose decoding is `kindOfBlue`. -/
def kindOfBlueReq : AlbumRequest :=
  { id := some "4", title := some "Kind of Blue", artist := some "Miles Davis",
    price := some (mkRat 4999 100) }

/-- Inversion for a successful create: the echoed album is the decoded
request, the new catalog is the old one with that album appended, and no
old album shared its id. -/
theorem createAlbum_ok (cat cat' : List Album) (r : AlbumRequest) (a : Album)
    (h : createAlbum cat r = (cat', Except.ok a)) :
    a = decodeAlbum r ∧ cat' = cat ++ [a] ∧
      cat.any (fun x => x.id == a.id) = false := by
  unfold createAlbum postAlbums at h
  split at h
  · split at h
    · simp at h
    case isFalse hd =>
      rw [Prod.mk.injEq, Except.ok.injEq] at h
      obtain ⟨h1, h2⟩ := h
      subst h2
      subst h1
      exact ⟨rfl, rfl, by rwa [Bool.not_eq_true] at hd⟩
  · simp at h

/-- Appending an album whose id has no match in the catalog makes it the
first (and only) hit of a scan for that id. -/
theorem find_append_self (cat : List Album) (a : Album)
    (h : cat.any (fun x => x.id == a.id) = false) :
    (cat ++ [a]).find? (fun x => x.id == a.id) = some a := by
  induction cat with
  | nil => simp
  | cons b l ih =>
    rw [List.any_cons, Bool.or_eq_false_iff] at h
    rw [List.cons_append, List.find?_cons_of_neg _ (by simp [h.1])]
    exact ih h.2

/-- C1: for every catalog state and every create whose album id equals
the id of some album already in the catalog, the insert operation
(`postAlbums`) yields the already-exists (409) condition and the catalog
after the operation equals the catalog before it. -/
theorem create_duplicate_id_conflict (cat : List Album) (a : Album)
    (h : ∃ b ∈ cat, b.id = a.id) :
    postAlbums cat a = (cat, Except.error Status.alreadyExists) := by
  have hc : cat.any (fun x => x.id == a.id) = true := by
    rw [List.any_eq_true]
    obtain ⟨b, hb, hid⟩ := h
    exact ⟨b, hb, by simp [hid]⟩
  unfold postAlbums
  rw [if_pos hc]

/-- C1 witness: re-posting seed id "1" is rejected with 409 and leaves
the seeded catalog untouched. -/
theorem create_duplicate_id_conflict_witness :
    postAlbums albums { id := "1", title := "Remastered", artist := "", price := 0 } =
      (albums, Except.error Status.alreadyExists) :=
  create_duplicate_id_conflict albums _
    ⟨{ id := "1", title := "Blue Train", artist := "John Coltrane", price := mkRat 5699 100 },
      by simp [albums], rfl⟩

/-- C3: any album successfully created can immediately be fetched by its
id, and the fetch returns the identical record (and leaves the catalog
as the create left it). -/
theorem create_then_get_identical (cat cat' : List Album) (r : AlbumRequest) (a : Album)
    (h : createAlbum cat r = (cat', Except.ok a)) :
    getAlbumByID cat' a.id = (cat', Except.ok a) := by
  obtain ⟨ha, hcat, hany⟩ := createAlbum_ok cat cat' r a h
  subst hcat
  unfold getAlbumByID
  rw [find_append_self cat a hany]

/-- C3 witness: after creating album "4" (Kind of Blue) on the seeded
catalog, `GET /albums/4` returns exactly that record. -/
theorem create_then_get_identical_witness :
    getAlbumByID (albums ++ [kindOfBlue]) "4" =
      (albums ++ [kindOfBlue], Except.ok kindOfBlue) :=
  create_then_get_identical albums (albums ++ [kindOfBlue]) kindOfBlueReq kindOfBlue
    (by rfl)

/-- C4: a valid create request whose decoded id is not yet in the
catalog appends the decoded album at the end of the catalog and echoes
exactly that record back. -/
theorem create_fresh_appends (cat : List Album) (r : AlbumRequest)
    (hv : validRequest r = true)
    (hfresh : ∀ b ∈ cat, b.id ≠ (decodeAlbum r).id) :
    createAlbum cat r = (cat ++ [decodeAlbum r], Except.ok (decodeAlbum r)) := by
  have hany : cat.any (fun x => x.id == (decodeAlbum r).id) = false := by
    rw [List.any_eq_false]
    intro x hx
    simp [hfresh x hx]
  unfold createAlbum postAlbums
  rw [if_pos hv, if_neg (by simp [hany])]

/-- C4 witness: posting album "4" (Kind of Blue) to the seeded catalog
appends it and echoes it back unchanged. -/
theorem create_fresh_appends_witness :
    createAlbum albums kindOfBlueReq =
      (albums ++ [kindOfBlue], Except.ok kindOfBlue) :=
  create_fresh_appends albums kindOfBlueReq (by decide) (by decide)

/-- C10: a successful create keeps every pre-existing album unchanged at
its position and grows the catalog by exactly one record. -/
theorem create_success_frame (cat cat' : List Album) (r : AlbumRequest) (a : Album)
    (h : createAlbum cat r = (cat', Except.ok a)) :
    cat'.length = cat.length + 1 ∧
      ∀ i, i < cat.length → cat'[i]? = cat[i]? := by
  obtain ⟨ha, hcat, hany⟩ := createAlbum_ok cat cat' r a h
  subst hcat
  refine ⟨by simp, ?_⟩
  intro i hi
  exact List.getElem?_append_left hi

/-- C10 witness: creating album "4" on the seeded catalog yields length
4 and keeps seed position 0 intact. -/
theorem create_success_frame_witness :
    (albums ++ [kindOfBlue]).length = albums.length + 1 ∧
      (albums ++ [kindOfBlue])[0]? = albums[0]? :=
  have h := create_success_frame albums (albums ++ [kindOfBlue]) kindOfBlueReq
    kindOfBlue (by rfl)
  ⟨h.1, h.2 0 (by decide)⟩

/-- Each operation preserves distinctness of the catalog's ids: reads
leave the catalog alone, and a create only appends when its id scan
found no match. -/
theorem applyOp_nodup (cat : List Album) (o : Op)
    (h : (cat.map Album.id).Nodup) : ((applyOp cat o).map Album.id).Nodup := by
  cases o with
  | list => exact h
  | getById i =>
    show (((getAlbumByID cat i).1).map Album.id).Nodup
    unfold getAlbumByID
    cases hf : cat.find? (fun a => a.id == i) <;> exact h
  | create r =>
    show (((createAlbum cat r).1).map Album.id).Nodup
    unfold createAlbum postAlbums
    split
    · split
      case isTrue hd => exact h
      case isFalse hd =>
        rw [Bool.not_eq_true, List.any_eq_false] at hd
        simp only [List.map_append, List.map_cons, List.map_nil]
        rw [List.nodup_append]
        refine ⟨h, List.nodup_singleton _, ?_⟩
        intro x hx hmem
        obtain ⟨b, hb, hbid⟩ := List.mem_map.mp hx
        have hx1 : x = (decodeAlbum r).id := by simpa using hmem
        have : (b.id == (decodeAlbum r).id) = true := by
          rw [beq_iff_eq, hbid, hx1]
        exact absurd this (by simpa using hd b hb)
    · exact h

/-- C5: starting from the seeded catalog, after any sequence of list,
get-by-id, and create operations, no two albums in the catalog share the
same id. -/
theorem runOps_ids_nodup (ops : List Op) : ((runOps ops).map Album.id).Nodup := by
  have hgen : ∀ (l : List Op) (cat : List Album), (cat.map Album.id).Nodup →
      ((l.foldl applyOp cat).map Album.id).Nodup := by
    intro l
    induction l with
    | nil => intro cat h; exact h
    | cons o l ih => intro cat h; exact ih _ (applyOp_nodup cat o h)
  exact hgen ops albums (by decide)

/-- C6: a create request whose id key is absent or holds the empty
string is rejected with the bad-input (400) condition, and the catalog
is not mutated. -/
theorem create_missing_or_empty_id_rejected (cat : List Album) (r : AlbumRequest)
    (h : r.id = none ∨ r.id = some "") :
    createAlbum cat r = (cat, Except.error Status.badInput) := by
  have hv : validRequest r = false := by
    unfold validRequest idValid
    rcases h with h | h <;> rw [h] <;> simp
  simp [createAlbum, hv]

/-- C6 witness: a request with no id key at all is rejected with 400 on
the seeded catalog, which stays unchanged. -/
theorem create_missing_or_empty_id_rejected_witness :
    createAlbum albums { id := none, title := some "T", artist := none, price := none } =
      (albums, Except.error Status.badInput) :=
  create_missing_or_empty_id_rejected albums _ (Or.inl rfl)

/-- C7: a create request whose price key is present and negative is
rejected with the bad-input (400) condition without mutating the
catalog; a request without a price key passes the price validation and
decodes to an album whose stored price is zero. -/
theorem price_validation_rules (cat : List Album) (r : AlbumRequest) :
    (∀ p : ℚ, r.price = some p → p < 0 →
        createAlbum cat r = (cat, Except.error Status.badInput)) ∧
    (r.price = none → priceValid r = true ∧ (decodeAlbum r).price = 0) := by
  constructor
  · intro p hp hneg
    have hpv : priceValid r = false := by
      unfold priceValid
      rw [hp]
      simp [not_le.mpr hneg]
    have hv : validRequest r = false := by
      unfold validRequest
      rw [hpv]
      simp
    simp [createAlbum, hv]
  · intro hp
    refine ⟨?_, ?_⟩
    · unfold priceValid
      rw [hp]
    · simp [decodeAlbum, hp]

/-- C7 witness: price -1 is rejected with 400 on the seeded catalog, and
a priceless request passes price validation and decodes to price 0. -/
theorem price_validation_rules_witness :
    createAlbum albums { id := some "9", title := some "T", artist := none, price := some (-1) } = (albums, Except.error Status.badInput) ∧
      (priceValid { id := some "9", title := some "T", artist := none, price := none } = true ∧
        (decodeAlbum { id := some "9", title := some "T", artist := none, price := none }).price = 0) :=
  ⟨(price_validation_rules albums _).1 (-1) rfl (by norm_num),
    (price_validation_rules albums _).2 rfl⟩

/-- C8: get-by-id leaves the catalog untouched; when some album carries
the requested id it returns a matching catalog album, and when none does
it yields the not-found (404) condition. -/
theorem getById_contract (cat : List Album) (i : String) :
    (getAlbumByID cat i).1 = cat ∧
    ((∃ a ∈ cat, a.id = i) →
      ∃ a, a ∈ cat ∧ a.id = i ∧ (getAlbumByID cat i).2 = Except.ok a) ∧
    ((∀ a ∈ cat, a.id ≠ i) → (getAlbumByID cat i).2 = Except.error Status.notFound) := by
  refine ⟨?_, ?_, ?_⟩
  · unfold getAlbumByID
    cases hf : cat.find? (fun a => a.id == i) <;> simp
  · rintro ⟨a, ha, hai⟩
    cases hf : cat.find? (fun a => a.id == i) with
    | none =>
      rw [List.find?_eq_none] at hf
      exact absurd (by simp [hai]) (hf a ha)
    | some b =>
      refine ⟨b, List.mem_of_find?_eq_some hf, ?_, ?_⟩
      · have hb := List.find?_some hf
        simpa using hb
      · unfold getAlbumByID
        rw [hf]
  · intro hnone
    have hf : cat.find? (fun a => a.id == i) = none := by
      rw [List.find?_eq_none]
      intro x hx
      simp [hnone x hx]
    unfold getAlbumByID
    rw [hf]

/-- C8 witness: on the seeded catalog, id "2" is found (returning a
catalog album with that id) and id "9" yields not-found. -/
theorem getById_contract_witness :
    (∃ a, a ∈ albums ∧ a.id = "2" ∧ (getAlbumByID albums "2").2 = Except.ok a) ∧
      (getAlbumByID albums "9").2 = Except.error Status.notFound :=
  ⟨(getById_contract albums "2").2.1
      ⟨{ id := "2", title := "Jeru", artist := "Gerry Mulligan", price := mkRat 1799 100 },
        by simp [albums], rfl⟩,
    (getById_contract albums "9").2.2 (by decide)⟩

/-- C9: the list operation never fails and returns the whole catalog in
insertion order; on the freshly seeded catalog it returns exactly the
three seed albums, in order. -/
theorem list_contract :
    (∀ cat : List Album, getAlbums cat = (cat, Except.ok cat)) ∧
    getAlbums albums =
      (albums, Except.ok
        [ { id := "1", title := "Blue Train", artist := "John Coltrane",
            price := mkRat 5699 100 },
          { id := "2", title := "Jeru", artist := "Gerry Mulligan",
            price := mkRat 1799 100 },
          { id := "3", title := "Sarah Vaughan and Clifford Brown",
            artist := "Sarah Vaughan", price := mkRat 3999 100 } ]) :=
  ⟨fun _ => rfl, rfl⟩

/-- C2 evaluation: a create request whose title key is present but holds
the empty string is ACCEPTED by the declared validation (the `title` tag
carries `required:"true"` but no `minLength`), so the album is inserted
with an empty title.  The repository's own tutorial text states that
`Title` "can not be empty" and its validation section shows the tag
`minLength:"1"` on `Title`, which the final `main.go` dropped. -/
theorem create_empty_title_accepted :
    createAlbum albums { id := some "10", title := some "", artist := none, price := some 1 } =
      (albums ++ [{ id := "10", title := "", artist := "", price := 1 }],
        Except.ok { id := "10", title := "", artist := "", price := 1 }) := by
  rfl

end RestTutorial
